import Mathlib

/-!
Verification of the JestLuaTestServer job-dispatch and worker-supervision core.

The definitions below are a shallow embedding of the Python sources under
`server/app/`: pure computations become Lean functions, the mutable
per-process state (queue, rate limiter, active-tests map) becomes an explicit
state record threaded through the handler functions, timestamps are `Int`
seconds, and byte strings are `List Nat` (each element a byte value).
Python attribute lookup on the `StudioManager` instance is modelled
explicitly (an attribute-name environment) because two call sites reference
attributes/parameters that the class does not define.
-/

namespace JestLua

/-- Configuration values from `config_manager.py` (`BaseConfig`). -/
structure Config where
  test_timeout : Nat
  chunk_size : Nat
  max_requests_per_minute : Nat
  max_rbxm_size : Nat
  deriving DecidableEq, Repr

/-- Defaults of `BaseConfig`: `test_timeout = 30`, `chunk_size = 8192`,
`max_requests_per_minute = 10`, `max_rbxm_size = 50 * 1024 * 1024`. -/
def base_config : Config :=
  { test_timeout := 30
    chunk_size := 8192
    max_requests_per_minute := 10
    max_rbxm_size := 50 * 1024 * 1024 }

/-! ### base64 (Python `base64.b64encode`, used at events.py line 57) -/

/-- The RFC 4648 base64 alphabet. -/
def b64_alphabet : List Char :=
  "ABCDEFGHIJKLMNOPQRSTUVWXYZabcdefghijklmnopqrstuvwxyz0123456789+/".toList

/-- Character for a six-bit group. -/
def sextet_char (n : Nat) : Char := b64_alphabet.getD n '?'

/-- Standard base64 of a byte string (bytes as `Nat` values < 256), with
`=` padding, as produced by Python's `base64.b64encode`. -/
def b64encode : List Nat → List Char
  | [] => []
  | [a] => [sextet_char (a / 4), sextet_char (a % 4 * 16), '=', '=']
  | [a, b] =>
      [sextet_char (a / 4), sextet_char (a % 4 * 16 + b / 16),
       sextet_char (b % 16 * 4), '=']
  | a :: b :: c :: rest =>
      sextet_char (a / 4) :: sextet_char (a % 4 * 16 + b / 16) ::
        sextet_char (b % 16 * 4 + c / 64) :: sextet_char (c % 64) :: b64encode rest

/-! ### Chunking (`_chunk_data_async`, events.py lines 20-26) -/

/-- Nat ceiling division, the value of Python's `math.ceil(a / b)` for the
sizes occurring here (`b > 0`). -/
def ceil_div (a b : Nat) : Nat := (a + b - 1) / b

/-- The chunks yielded by `_chunk_data_async(data, chunk_size)`:
`data[i : i + chunk_size]` for `i in range(0, len(data), chunk_size)`.
(Python raises for `chunk_size = 0`; the configuration value is 8192 and all
theorems assume `0 < chunk_size`.) -/
def chunk_data_async (data : List Char) (chunk_size : Nat) : List (List Char) :=
  (List.range (ceil_div data.length chunk_size)).map
    (fun i => (data.drop (i * chunk_size)).take chunk_size)

/-! ### The SSE delivery protocol (`event_generator`, events.py lines 29-126) -/

/-- One server-sent event as emitted by `event_generator`. The inductive has
a constructor for an `end` event so that the specified protocol shape is
statable; the source emits only `test_start` and `test_chunk`. -/
inductive SSEEvent where
  | test_start (test_id : String) (total_size : Nat)
  | test_chunk (test_id : String) (is_final_chunk : Bool) (chunk_b64 : List Char)
  | test_end (test_id : String)
  deriving DecidableEq, Repr

/-- The event sequence emitted for one test delivered without disconnect
(events.py lines 55-104): a `test_start` with `total_size = len(b64_rbxm)`,
then one `test_chunk` per chunk with `is_final_chunk` true exactly when
`chunk_idx == final_chunk_idx` where
`final_chunk_idx = ceil(len(b64_rbxm) / chunk_size)`.
No further event follows the chunk loop in the source. -/
def event_generator_events (test_id : String) (rbxm_data : List Nat)
    (chunk_size : Nat) : List SSEEvent :=
  let b64_rbxm := b64encode rbxm_data
  let final_chunk_idx := ceil_div b64_rbxm.length chunk_size
  SSEEvent.test_start test_id b64_rbxm.length ::
    (chunk_data_async b64_rbxm chunk_size).enum.map
      (fun p => SSEEvent.test_chunk test_id (p.1 + 1 == final_chunk_idx) p.2)

/-! ### The FIFO test queue (`asyncio.Queue` in `app.state.test_queue`) -/

/-- A queued test job: `{"test_id": ..., "data": ...}` (test.py lines 104-109). -/
structure QueuedTest where
  test_id : String
  data : List Nat
  deriving DecidableEq, Repr

/-- Model of `asyncio.Queue.put`: appends at the tail of the FIFO queue. -/
def queue_put (q : List QueuedTest) (t : QueuedTest) : List QueuedTest := q ++ [t]

/-- Model of `asyncio.Queue.get`: removes from the head of the FIFO queue. -/
def queue_get : List QueuedTest → Option (QueuedTest × List QueuedTest)
  | [] => none
  | t :: rest => some (t, rest)

/-- The three occasions on which `event_generator` loses its worker while a
delivery is in flight. -/
inductive DisconnectOccasion where
  | before_poll
  | mid_chunk
  | cancelled
  deriving DecidableEq, Repr

/-- The requeue performed by `event_generator` when the worker connection is
lost while `current_test_data` is in flight. All three occasions execute
`await request.app.state.test_queue.put(current_test_data)`:
lines 44-48 (`is_disconnected` before the next poll), lines 78-85
(`is_disconnected` inside the chunk loop), lines 111-118
(`asyncio.CancelledError`). `put` appends at the tail of the queue. -/
def requeue_on_disconnect (occ : DisconnectOccasion) (q : List QueuedTest)
    (current_test_data : Option QueuedTest) : List QueuedTest :=
  match occ, current_test_data with
  | _, none => q
  | .before_poll, some t => queue_put q t
  | .mid_chunk, some t => queue_put q t
  | .cancelled, some t => queue_put q t

/-- Concrete jobs for counterexamples. -/
def jobA : QueuedTest := { test_id := "job-a", data := [60] }

/-- A strictly newer job already sitting in the queue. -/
def jobB : QueuedTest := { test_id := "job-b", data := [61] }

/-! ### Results intake (`results.py`) -/

/-- The request body of `POST /_results` (`TestResults` pydantic model,
results.py lines 11-19). `duration` is a Python float and `details` a JSON
object; both are only ever carried through, never computed with, so they are
embedded as opaque representations. -/
structure TestResults where
  test_id : String
  success : Bool
  passed : Int := 0
  failed : Int := 0
  skipped : Int := 0
  duration : Int := 0
  details : Option String := none
  error : Option String := none
  deriving DecidableEq, Repr

/-- The `result_data` dict built in `submit_results` (results.py lines 35-43)
and stored into the test's future. -/
structure ResultData where
  success : Bool
  passed : Int
  failed : Int
  skipped : Int
  duration : Int
  details : Option String
  error : Option String
  deriving DecidableEq, Repr

/-- Builds `result_data` from the submitted body (results.py lines 35-43). -/
def result_data_of (r : TestResults) : ResultData :=
  { success := r.success, passed := r.passed, failed := r.failed,
    skipped := r.skipped, duration := r.duration, details := r.details,
    error := r.error }

/-- One entry of `app.state.active_tests` (test.py lines 99-102): the payload
plus the `asyncio.Future` result slot (`none` = not yet resolved). -/
structure ActiveEntry where
  data : List Nat
  future : Option ResultData
  deriving DecidableEq, Repr

/-- The HTTP outcome of `POST /_results`. -/
inductive ResultsHTTP where
  | accepted (test_id : String)
  | not_found (status_code : Nat)
  deriving DecidableEq, Repr

/-- Handler `submit_results` (results.py lines 22-50): 404 when the id is not in
`active_tests`; otherwise `future.set_result(result_data)` if the future is
not yet done, a logged no-op if it is; in either case the response is
`{"status": "accepted", "test_id": test_id}`. -/
def submit_results (active_tests : String → Option ActiveEntry)
    (results : TestResults) : (String → Option ActiveEntry) × ResultsHTTP :=
  match active_tests results.test_id with
  | none => (active_tests, .not_found 404)
  | some entry =>
    match entry.future with
    | none =>
      (fun i => if i = results.test_id then
          some { entry with future := some (result_data_of results) }
        else active_tests i,
       .accepted results.test_id)
    | some _ => (active_tests, .accepted results.test_id)

/-! ### Authentication (`auth.py`) -/

/-- A parsed `Authorization` header as provided by `HTTPBearer`. -/
structure BearerCredentials where
  scheme : String
  credentials : String
  deriving DecidableEq, Repr

/-- Outcome of running a FastAPI dependency: it either returns a value or
raises an `HTTPException` with a status code. -/
inductive AuthOutcome where
  | allowed (value : Bool)
  | rejected (status_code : Nat)
  deriving DecidableEq, Repr

/-- Dependency `SessionTokenAuth.verify_session_token` (auth.py lines 31-69). Note the
`self._session_token is None` branch returns `False` without raising; a
`False` dependency value does not block the request in FastAPI. -/
def verify_session_token (enabled : Bool) (session_token : Option String)
    (credentials : Option BearerCredentials) : AuthOutcome :=
  if enabled = false then .allowed true
  else
    match session_token with
    | none => .allowed false
    | some tok =>
      match credentials with
      | none => .rejected 401
      | some cred =>
        if (cred.scheme.toLower == "bearer") = false then .rejected 401
        else if cred.credentials ≠ tok then .rejected 403
        else .allowed true

/-- Whether the `POST /_results` route declares the internal-auth dependency.
`submit_results`'s signature (results.py line 23) takes only
`(request, results)` — unlike `/_heartbeat` and `/_events`, which both
declare `_auth: InternalAuthDep`, no auth dependency is present. -/
def results_route_dependencies_include_auth : Bool := false

/-- Processing of one `POST /_results` request: FastAPI runs the route's
dependencies first (none authenticate for this route), then the handler. -/
def handle_results_request (enabled : Bool) (session_token : Option String)
    (credentials : Option BearerCredentials)
    (active_tests : String → Option ActiveEntry) (results : TestResults) :
    (String → Option ActiveEntry) × Except Nat ResultsHTTP :=
  if results_route_dependencies_include_auth then
    match verify_session_token enabled session_token credentials with
    | .rejected code => (active_tests, .error code)
    | .allowed _ =>
      let out := submit_results active_tests results
      (out.1, .ok out.2)
  else
    let out := submit_results active_tests results
    (out.1, .ok out.2)

/-! ### Admission control (`run_test`, test.py lines 42-109) -/

/-- The signature constant `RBXM_SIGNATURE = b"<roblox!"` (test.py line 23). -/
def RBXM_SIGNATURE : List Nat := [60, 114, 111, 98, 108, 111, 120, 33]

/-- The per-process server state created in `lifespan` (main.py lines 76-82),
restricted to the parts the handlers mutate. `rate_limiter` is the
`defaultdict(list)` keyed by client ip (missing key = `[]`), `active_tests`
the id-to-entry dict, `test_queue` the FIFO `asyncio.Queue`. -/
structure ServerState where
  accepting_tests : Bool
  rate_limiter : String → List Int
  active_tests : String → Option ActiveEntry
  test_queue : List QueuedTest

/-- The admission rejections of `run_test`, in source order. -/
inductive Rejection where
  | not_accepting
  | rate_limited
  | empty_payload
  | payload_too_large
  | invalid_format
  deriving DecidableEq, Repr

/-- The `HTTPException` status code of each rejection
(test.py lines 57, 70, 79, 84, 91). -/
def rejection_status : Rejection → Nat
  | .not_accepting => 503
  | .rate_limited => 429
  | .empty_payload => 400
  | .payload_too_large => 413
  | .invalid_format => 400

/-- The admission phase of `run_test` (test.py lines 55-109): draining check,
rate-window prune + limit check, slot append, empty-payload check, size
check, signature check, then registration in `active_tests` and enqueue.
Returns the mutated state and `some rejection` when an `HTTPException` was
raised, `none` when the submission was admitted. -/
def run_test_admission (cfg : Config) (st : ServerState) (client_ip : String)
    (now : Int) (rbxm_data : List Nat) (test_id : String) :
    ServerState × Option Rejection :=
  if st.accepting_tests = false then (st, some .not_accepting)
  else
    -- rate_limiter[client_ip] = [ts for ts in rate_limiter[client_ip] if ts > minute_ago]
    let pruned := (st.rate_limiter client_ip).filter (fun ts => now - 60 < ts)
    let st1 := { st with
      rate_limiter := fun ip => if ip = client_ip then pruned else st.rate_limiter ip }
    if cfg.max_requests_per_minute ≤ pruned.length then (st1, some .rate_limited)
    else
      -- rate_limiter[client_ip].append(now)
      let st2 := { st1 with
        rate_limiter := fun ip =>
          if ip = client_ip then pruned ++ [now] else st.rate_limiter ip }
      if rbxm_data.length = 0 then (st2, some .empty_payload)
      else if cfg.max_rbxm_size < rbxm_data.length then (st2, some .payload_too_large)
      else if RBXM_SIGNATURE.isPrefixOf rbxm_data = false then (st2, some .invalid_format)
      else
        (
          { st2 with
            active_tests := fun i =>
              if i = test_id then some { data := rbxm_data, future := none }
              else st2.active_tests i,
            test_queue := queue_put st2.test_queue { test_id := test_id, data := rbxm_data } },
          none)

/-- Modelled from the spec's admission contract (spec section 4.1), for
comparison with `run_test_admission`: the five checks in the claimed fixed
order, first failure wins, no state. -/
def admission_verdict_spec (cfg : Config) (st : ServerState) (client_ip : String)
    (now : Int) (rbxm_data : List Nat) : Option Rejection :=
  if st.accepting_tests = false then some .not_accepting
  else if cfg.max_requests_per_minute
      ≤ ((st.rate_limiter client_ip).filter (fun ts => now - 60 < ts)).length then
    some .rate_limited
  else if rbxm_data.length = 0 then some .empty_payload
  else if cfg.max_rbxm_size < rbxm_data.length then some .payload_too_large
  else if RBXM_SIGNATURE.isPrefixOf rbxm_data = false then some .invalid_format
  else none

/-! ### The result wait (`run_test`, test.py lines 111-164) -/

/-- The `TestResponse` pydantic model (test.py lines 35-39). -/
structure TestResponse where
  test_id : String
  status : String
  results : Option ResultData := none
  error : Option String := none
  deriving DecidableEq, Repr

/-- The error string of the timeout response (test.py line 153). -/
def timeout_error_message (cfg : Config) : String :=
  "Test execution timed out after " ++ toString cfg.test_timeout ++ " seconds."

/-- The timeout passed to `asyncio.wait_for` (test.py line 117):
`test_queue.qsize() * app_config.test_timeout`. -/
def dynamic_timeout (cfg : Config) (queue_depth : Nat) : Nat :=
  queue_depth * cfg.test_timeout

/-- The result wait of `run_test` (test.py lines 115-164) for an admitted
test. `st` is the state when the wait begins; the queue depth is sampled from
it once. `arrival` abstracts the future: `some (t, outcome)` means the worker
resolved it `t` seconds into the wait, `none` that it never resolves. Returns
the response, the state when the wait ends (before the `finally` block at
line 163), and the state after `active_tests.pop(test_id, None)` (line 164).
On success the response's `results` field is `outcome.get("results")`, which
is always `None` because `result_data` carries no `"results"` key. -/
def run_test_await (cfg : Config) (st : ServerState) (test_id : String)
    (arrival : Option (Nat × ResultData)) :
    TestResponse × ServerState × ServerState :=
  let bound := dynamic_timeout cfg st.test_queue.length
  let resp : TestResponse :=
    match arrival with
    | some (t, outcome) =>
      if t ≤ bound then
        if outcome.success then
          { test_id := test_id, status := "completed", results := none }
        else
          { test_id := test_id, status := "failed", error := outcome.error }
      else
        { test_id := test_id, status := "timeout",
          error := some (timeout_error_message cfg) }
    | none =>
      { test_id := test_id, status := "timeout",
        error := some (timeout_error_message cfg) }
  (resp, st,
   { st with active_tests := fun i => if i = test_id then none else st.active_tests i })

/-! ### The health wait (`run_test` lines 111-113, `is_healthy` lines 315-325) -/

/-- The dict returned by `StudioManager.is_healthy`
(studio_manager.py lines 315-325). -/
structure HealthStatus where
  studio_running : Bool
  plugin_installed : Bool
  fflags_applied : Bool
  placefile_built : Bool
  deriving DecidableEq, Repr

/-- The condition `all(studio_manager.is_healthy().values())` (test.py line 111). -/
def all_healthy (h : HealthStatus) : Bool :=
  h.studio_running && h.plugin_installed && h.fflags_applied && h.placefile_built

/-- The loop `while not all(studio_manager.is_healthy().values()): await
asyncio.sleep(0.1)` (test.py lines 111-113). `trace n` is the health status
observed at the loop's n-th poll; the loop has no iteration bound of its own,
so it is embedded with explicit fuel: `some n` means the loop exited at poll
`n` within `fuel` iterations, `none` that it was still looping. -/
def wait_until_healthy (trace : Nat → HealthStatus) : Nat → Nat → Option Nat
  | 0, _ => none
  | fuel + 1, k =>
    if all_healthy (trace k) then some k else wait_until_healthy trace fuel (k + 1)

/-- The tail of `run_test` after the enqueue (test.py lines 111-164): the
health-wait loop, then the timed result wait. While the loop has not exited
(`none`), no timeout has started and no response exists. -/
def run_test_after_enqueue (cfg : Config) (st : ServerState) (test_id : String)
    (trace : Nat → HealthStatus) (fuel : Nat) (arrival : Option (Nat × ResultData)) :
    Option (TestResponse × ServerState × ServerState) :=
  match wait_until_healthy trace fuel 0 with
  | none => none
  | some _ => some (run_test_await cfg st test_id arrival)

/-! ### The heartbeat supervisor (`main.py` lines 20-65, `test.py` lines
28-32, `studio_manager.py`)

`main.py` reads `studio_manager._last_heartbeat` and calls
`studio_manager.stop_studio(skip_graceful=True)`; `test.py` calls
`studio_manager.update_heartbeat()`. Python resolves these names dynamically
against the object's attributes, so attribute lookup is embedded explicitly:
the lists below transcribe exactly which names `StudioManager` defines. -/

/-- Instance attributes assigned in `StudioManager.__init__`
(studio_manager.py lines 18-32): no `_last_heartbeat` is among them, and no
other method assigns it. -/
def studio_manager_instance_attrs : List String :=
  ["process", "plugin_manager", "fflag_manager", "unit_tests_place_dir",
   "built_unit_tests_placefile", "studio_dir", "studio_path"]

/-- Methods defined in `class StudioManager` (studio_manager.py lines
15-325): no `update_heartbeat` is among them. -/
def studio_manager_class_attrs : List String :=
  ["__init__", "_find_studio_executable", "_find_studio_from_registry",
   "_build_placefile", "_clean_lock_file", "_launch_studio_process",
   "_verify_studio_startup", "start_studio", "_terminate_studio_process",
   "_force_kill_studio_process", "stop_studio", "_wait_for_process",
   "_monitor_process_health", "is_running", "is_healthy"]

/-- Python errors raised by the call sites modelled here. -/
inductive PyErr where
  | attributeError (name : String)
  | typeError (msg : String)
  deriving DecidableEq, Repr

/-- Whether `name` resolves on a `StudioManager` instance. -/
def studio_manager_has_attr (name : String) : Bool :=
  studio_manager_instance_attrs.contains name
    || studio_manager_class_attrs.contains name

/-- Python attribute lookup `studio_manager.<name>`: `AttributeError` when
the name resolves neither to an instance attribute nor to a class method. -/
def studio_manager_getattr (name : String) : Except PyErr Unit :=
  if studio_manager_has_attr name then .ok ()
  else .error (.attributeError name)

/-- The parameter list of `StudioManager.stop_studio`
(studio_manager.py line 244): `async def stop_studio(self) -> bool`. -/
def stop_studio_params : List String := ["self"]

/-- Calling a Python function with keyword argument `kw`: `TypeError` when
`kw` is not among the function's parameters. -/
def call_with_keyword (params : List String) (kw : String) : Except PyErr Unit :=
  if params.contains kw then .ok ()
  else .error (.typeError ("unexpected keyword argument " ++ kw))

/-- State visible to one heartbeat-monitor tick: whether
`studio_manager.is_running()`, which attribute names exist on the instance,
and the value `_last_heartbeat` would hold if it existed. -/
structure MonitorState where
  running : Bool
  attrs : List String
  last_heartbeat : Option Int

/-- Outcome of one iteration of the `monitor_heartbeat` loop. -/
inductive TickOutcome where
  | skipped_not_running
  | skipped_no_heartbeat
  | fresh
  | restarted (restart_success : Bool)
  | exception_logged (e : PyErr)
  deriving DecidableEq, Repr

/-- One iteration of `monitor_heartbeat` (main.py lines 22-65).
Line 32 reads `studio_manager._last_heartbeat`; when the attribute does not
exist the read raises `AttributeError`, caught by the outer
`except Exception` (line 63), which logs and sleeps. In the stale branch,
line 46 calls `stop_studio(skip_graceful=True)`; a keyword not in the
function's parameters raises `TypeError`, caught by the inner
`except Exception` (line 57). Only when the stop call succeeds are the
heartbeat cleared and `start_studio()` attempted (`start_success`). -/
def monitor_heartbeat_tick (st : MonitorState) (now : Int)
    (start_success : Bool) : TickOutcome :=
  if st.running = false then .skipped_not_running
  else if "_last_heartbeat" ∈ st.attrs then
    match st.last_heartbeat with
    | none => .skipped_no_heartbeat
    | some hb =>
      if 8 < now - hb then
        match call_with_keyword stop_studio_params "skip_graceful" with
        | .error e => .exception_logged e
        | .ok _ => .restarted start_success
      else .fresh
  else .exception_logged (.attributeError "_last_heartbeat")

/-- The attribute names actually present on the running `StudioManager`
instance: what `__init__` assigned plus the class's methods. -/
def studio_manager_all_attrs : List String :=
  studio_manager_instance_attrs ++ studio_manager_class_attrs

/-- The `POST /_heartbeat` handler (test.py lines 28-32): it calls
`studio_manager.update_heartbeat()` and then returns `{"status": "alive"}`.
An `AttributeError` from the call propagates out of the handler (FastAPI
turns it into a 500 response). -/
def heartbeat_endpoint : Except PyErr (List (String × String)) :=
  match studio_manager_getattr "update_heartbeat" with
  | .error e => .error e
  | .ok _ => .ok [("status", "alive")]

/-- An accepting server state with nothing queued, for witnesses. -/
def accepting_state_example : ServerState :=
  { accepting_tests := true
    rate_limiter := fun _ => []
    active_tests := fun _ => none
    test_queue := [] }

/-- An active-tests map with one pending test `"t1"`, for witnesses. -/
def pending_active_example : String → Option ActiveEntry :=
  fun i => if i = "t1" then some { data := RBXM_SIGNATURE, future := none } else none

/-- A health trace on which the worker never becomes fully healthy. -/
def unhealthy_trace : Nat → HealthStatus :=
  fun _ => { studio_running := false, plugin_installed := true,
             fflags_applied := true, placefile_built := true }

end JestLua

namespace JestLua

/-! ## Supporting lemmas -/

theorem ceil_div_eq_zero (a b : Nat) (hb : 0 < b) (ha : a = 0) : ceil_div a b = 0 := by
  subst ha; unfold ceil_div; exact Nat.div_eq_of_lt (by omega)

theorem ceil_div_pos_eq (a b : Nat) (hb : 0 < b) (ha : 0 < a) :
    ceil_div a b = ceil_div (a - b) b + 1 := by
  unfold ceil_div
  have h3 : a + b - 1 = (a - 1) + b := by omega
  rw [h3, Nat.add_div_right _ hb]
  rcases le_or_lt a b with h | h
  · have h1 : a - b = 0 := by omega
    rw [h1]
    have h2 : (0 + b - 1) / b = 0 := Nat.div_eq_of_lt (by omega)
    have h4 : (a - 1) / b = 0 := Nat.div_eq_of_lt (by omega)
    omega
  · have h4 : a - b + b - 1 = (a - b - 1) + b := by omega
    rw [h4, Nat.add_div_right _ hb]
    have h5 : a - 1 = (a - b - 1) + b := by omega
    rw [h5, Nat.add_div_right _ hb]

theorem chunk_data_async_cons (cs : Nat) (hcs : 0 < cs) (s : List Char) (hs : s ≠ []) :
    chunk_data_async s cs = s.take cs :: chunk_data_async (s.drop cs) cs := by
  unfold chunk_data_async
  have hlen : 0 < s.length := List.length_pos.mpr hs
  rw [ceil_div_pos_eq s.length cs hcs hlen, List.range_succ_eq_map, List.map_cons,
    List.map_map]
  refine congrArg₂ List.cons (by simp) ?_
  rw [List.length_drop]
  refine List.map_congr_left ?_
  intro i _
  show (s.drop (Nat.succ i * cs)).take cs = ((s.drop cs).drop (i * cs)).take cs
  rw [List.drop_drop, Nat.succ_mul, Nat.add_comm (i * cs) cs]

theorem chunk_data_async_length (s : List Char) (cs : Nat) :
    (chunk_data_async s cs).length = ceil_div s.length cs := by
  simp [chunk_data_async]

theorem chunk_data_async_flatten (cs : Nat) (hcs : 0 < cs) :
    ∀ k (s : List Char), ceil_div s.length cs = k → (chunk_data_async s cs).flatten = s := by
  intro k
  induction k with
  | zero =>
    intro s h
    have hs : s = [] := by
      by_contra hne
      have h2 := ceil_div_pos_eq s.length cs hcs (List.length_pos.mpr hne)
      omega
    subst hs
    simp [chunk_data_async, ceil_div_eq_zero 0 cs hcs rfl]
  | succ k ih =>
    intro s h
    have hs : s ≠ [] := by
      intro hne
      subst hne
      rw [List.length_nil, ceil_div_eq_zero 0 cs hcs rfl] at h
      omega
    rw [chunk_data_async_cons cs hcs s hs, List.flatten_cons,
      ih (s.drop cs)
        (by
          rw [List.length_drop]
          have h2 := ceil_div_pos_eq s.length cs hcs (List.length_pos.mpr hs)
          omega),
      List.take_append_drop]

theorem chunk_data_async_mem (cs : Nat) (hcs : 0 < cs) :
    ∀ k (s : List Char), ceil_div s.length cs = k →
      ∀ c ∈ chunk_data_async s cs, 0 < c.length ∧ c.length ≤ cs := by
  intro k
  induction k with
  | zero =>
    intro s h c hc
    have hs : s = [] := by
      by_contra hne
      have h2 := ceil_div_pos_eq s.length cs hcs (List.length_pos.mpr hne)
      omega
    subst hs
    simp [chunk_data_async, ceil_div_eq_zero 0 cs hcs rfl] at hc
  | succ k ih =>
    intro s h c hc
    have hs : s ≠ [] := by
      intro hne
      subst hne
      rw [List.length_nil, ceil_div_eq_zero 0 cs hcs rfl] at h
      omega
    have hlen : 0 < s.length := List.length_pos.mpr hs
    rw [chunk_data_async_cons cs hcs s hs, List.mem_cons] at hc
    rcases hc with hc | hc
    · subst hc
      rw [List.length_take]
      omega
    · exact ih (s.drop cs)
        (by
          rw [List.length_drop]
          have h2 := ceil_div_pos_eq s.length cs hcs hlen
          omega)
        c hc

theorem b64encode_ne_nil (data : List Nat) (hdata : data ≠ []) : b64encode data ≠ [] := by
  match data with
  | [] => exact absurd rfl hdata
  | [a] => simp [b64encode]
  | [a, b] => simp [b64encode]
  | a :: b :: c :: rest => simp [b64encode]

/-! ## Claim C1 -/

/-- Claim C1 as stated is false: a job whose delivery was aborted by a
worker disconnect is re-queued with `test_queue.put`, which appends at the
tail of the FIFO queue. With `jobB` already queued (strictly newer than the
in-flight `jobA`), after the requeue the next job delivered is `jobB`, not
`jobA`, so the requeued job is not delivered before strictly-newer queued
jobs. -/
theorem requeue_on_disconnect_not_front :
    (queue_get (requeue_on_disconnect .before_poll [jobB] (some jobA))).map Prod.fst
      = some jobB ∧ jobB ≠ jobA := by decide

/-- Claim C1 (amended): on every one of the three disconnect occasions —
disconnect detected before the next poll, disconnect detected mid-chunk-loop,
cancellation of the delivery task — the in-flight job is reinserted at the
back of the FIFO queue exactly once: its queue multiplicity rises by exactly
one, it is never dropped, and (since an in-flight job is not in the queue) it
appears exactly once afterwards. -/
theorem requeue_on_disconnect_back_exactly_once (occ : DisconnectOccasion)
    (q : List QueuedTest) (t : QueuedTest) :
    requeue_on_disconnect occ q (some t) = q ++ [t]
    ∧ (requeue_on_disconnect occ q (some t)).count t = q.count t + 1
    ∧ t ∈ requeue_on_disconnect occ q (some t)
    ∧ (t ∉ q → (requeue_on_disconnect occ q (some t)).count t = 1) := by
  have hq : requeue_on_disconnect occ q (some t) = q ++ [t] := by
    cases occ <;> rfl
  refine ⟨hq, ?_, ?_, ?_⟩
  · rw [hq, List.count_append]
    simp
  · rw [hq]
    simp
  · intro hnot
    rw [hq, List.count_append]
    simp [List.count_eq_zero.mpr hnot]

/-- Witness for `requeue_on_disconnect_back_exactly_once` at a concrete
queue and job. -/
theorem requeue_on_disconnect_back_exactly_once_witness :
    jobA ∉ [jobB] ∧ (requeue_on_disconnect .mid_chunk [jobB] (some jobA)).count jobA = 1 :=
  ⟨by decide, (requeue_on_disconnect_back_exactly_once .mid_chunk [jobB] jobA).2.2.2 (by decide)⟩

/-! ## Claim C2 -/

/-- Claim C2 as stated is false: after the chunk loop, `event_generator`
emits no further event, so the delivery of a job (here: a payload equal to
the 8-byte rbxm signature, at the configured chunk size 8192) contains no
`end` event — the event sequence ends with the final chunk, not with an
`end` event carrying the job id. -/
theorem event_generator_events_no_end :
    SSEEvent.test_end "t" ∉ event_generator_events "t" RBXM_SIGNATURE 8192
    ∧ (event_generator_events "t" RBXM_SIGNATURE 8192).getLast?
        = some (SSEEvent.test_chunk "t" true "PHJvYmxveCE=".toList) := by decide

/-- Claim C2 (amended): for every job delivered without disconnect, the
emitted sequence is exactly one `test_start` event carrying the job id and a
total size equal to the length of the base64 encoding of the payload,
followed by one `test_chunk` event per chunk — each chunk nonempty and of at
most the configured chunk size, their concatenation equal to the base64
encoding, and the final-chunk flag true exactly on the last chunk — and no
`end` event. -/
theorem event_generator_events_spec (test_id : String) (data : List Nat) (cs : Nat)
    (hcs : 0 < cs) (hdata : data ≠ []) :
    event_generator_events test_id data cs
      = SSEEvent.test_start test_id (b64encode data).length ::
          (chunk_data_async (b64encode data) cs).enum.map
            (fun p => SSEEvent.test_chunk test_id
              (p.1 + 1 == (chunk_data_async (b64encode data) cs).length) p.2)
    ∧ (chunk_data_async (b64encode data) cs).flatten = b64encode data
    ∧ chunk_data_async (b64encode data) cs ≠ []
    ∧ ∀ c ∈ chunk_data_async (b64encode data) cs, 0 < c.length ∧ c.length ≤ cs := by
  have hb64 := b64encode_ne_nil data hdata
  have hlen : 0 < (b64encode data).length := List.length_pos.mpr hb64
  refine ⟨?_, ?_, ?_, ?_⟩
  · simp only [event_generator_events, chunk_data_async_length]
  · exact chunk_data_async_flatten cs hcs _ _ rfl
  · rw [chunk_data_async_cons cs hcs _ hb64]
    simp
  · exact chunk_data_async_mem cs hcs _ _ rfl

/-- Witness for `event_generator_events_spec` at the signature payload and
the configured chunk size. -/
theorem event_generator_events_spec_witness :
    (chunk_data_async (b64encode RBXM_SIGNATURE) 8192).flatten = b64encode RBXM_SIGNATURE
    ∧ chunk_data_async (b64encode RBXM_SIGNATURE) 8192 ≠ [] :=
  ⟨(event_generator_events_spec "t" RBXM_SIGNATURE 8192 (by decide) (by decide)).2.1,
   (event_generator_events_spec "t" RBXM_SIGNATURE 8192 (by decide) (by decide)).2.2.1⟩

end JestLua

namespace JestLua

/-! ## Claim C3 -/

/-- Claim C3 fails on the code: on a heartbeat-monitor tick with the worker
running, the read of `studio_manager._last_heartbeat` (main.py line 32)
raises `AttributeError` — `StudioManager` never defines that attribute — so
the tick is swallowed by the outer `except Exception` and no stop-then-start
cycle ever happens, whatever the heartbeat age would be; moreover the stale
branch's call `stop_studio(skip_graceful=True)` (main.py line 46) would
itself raise `TypeError`, because `stop_studio` (studio_manager.py line 244)
accepts no `skip_graceful` parameter. -/
theorem monitor_heartbeat_no_restart (hb : Option Int) (now : Int) (start_success : Bool) :
    monitor_heartbeat_tick
        { running := true, attrs := studio_manager_all_attrs, last_heartbeat := hb }
        now start_success
      = .exception_logged (.attributeError "_last_heartbeat")
    ∧ call_with_keyword stop_studio_params "skip_graceful"
      = .error (.typeError "unexpected keyword argument skip_graceful") := by
  constructor
  · simp [monitor_heartbeat_tick, studio_manager_all_attrs,
      studio_manager_instance_attrs, studio_manager_class_attrs]
  · rfl

/-! ## Claim C4 -/

/-- Claim C4 fails on the code: the `POST /_heartbeat` handler calls
`studio_manager.update_heartbeat()` (test.py line 31), but `StudioManager`
defines no `update_heartbeat` method, so the call raises `AttributeError`:
no timestamp is recorded and the handler never returns
`{"status": "alive"}`. -/
theorem heartbeat_endpoint_attribute_error :
    heartbeat_endpoint = .error (.attributeError "update_heartbeat")
    ∧ ∀ resp, heartbeat_endpoint ≠ .ok resp := by
  refine ⟨rfl, ?_⟩
  intro resp h
  rw [show heartbeat_endpoint = .error (.attributeError "update_heartbeat") from rfl] at h
  exact Except.noConfusion h

/-! ## Claim C5 -/

/-- Claim C5 fails on the code: the `POST /_results` route declares no auth
dependency (results.py line 23), so with auth enabled a request carrying no
credentials at all — which `verify_session_token` would reject with 401 —
still runs the handler, resolves the registered pending result for `"t1"`,
and receives the accepted response. -/
theorem submit_results_unauthenticated_resolves :
    results_route_dependencies_include_auth = false
    ∧ verify_session_token true (some "session-token") none = .rejected 401
    ∧ (handle_results_request true (some "session-token") none pending_active_example
        { test_id := "t1", success := true }).2 = .ok (.accepted "t1")
    ∧ (handle_results_request true (some "session-token") none pending_active_example
        { test_id := "t1", success := true }).1 "t1"
      = some { data := RBXM_SIGNATURE,
               future := some (result_data_of { test_id := "t1", success := true }) } := by
  refine ⟨rfl, rfl, ?_, ?_⟩
  · simp [handle_results_request, submit_results, pending_active_example,
      results_route_dependencies_include_auth]
  · simp [handle_results_request, submit_results, pending_active_example,
      results_route_dependencies_include_auth]

/-! ## Claim C6 -/

/-- Claim C6: the admission checks of `run_test` run in the fixed order
draining (503), rate limit over the pruned 60-second window (429), empty
payload (400), oversized payload (413), missing 8-byte signature (400);
the verdict equals the spec-side first-failing-check function, and a
rejected submission leaves the test queue and the active-tests map
unchanged. -/
theorem run_test_admission_checks (cfg : Config) (st : ServerState) (client_ip : String)
    (now : Int) (rbxm_data : List Nat) (test_id : String) :
    (run_test_admission cfg st client_ip now rbxm_data test_id).2
      = admission_verdict_spec cfg st client_ip now rbxm_data
    ∧ ((run_test_admission cfg st client_ip now rbxm_data test_id).2 ≠ none →
        (run_test_admission cfg st client_ip now rbxm_data test_id).1.test_queue
          = st.test_queue
        ∧ (run_test_admission cfg st client_ip now rbxm_data test_id).1.active_tests
          = st.active_tests)
    ∧ rejection_status .not_accepting = 503
    ∧ rejection_status .rate_limited = 429
    ∧ rejection_status .empty_payload = 400
    ∧ rejection_status .payload_too_large = 413
    ∧ rejection_status .invalid_format = 400 := by
  refine ⟨?_, ?_, rfl, rfl, rfl, rfl, rfl⟩
  · simp only [run_test_admission, admission_verdict_spec]
    split_ifs <;> rfl
  · simp only [run_test_admission]
    split_ifs <;> intro hrej <;>
      first | exact ⟨rfl, rfl⟩ | exact absurd rfl hrej

/-- Witness for `run_test_admission_checks` at a concrete rejected
submission (empty payload). -/
theorem run_test_admission_checks_witness :
    (run_test_admission base_config accepting_state_example "client" 100 [] "id").2
      = admission_verdict_spec base_config accepting_state_example "client" 100 []
    ∧ (run_test_admission base_config accepting_state_example "client" 100 [] "id").1.test_queue
      = accepting_state_example.test_queue
    ∧ (run_test_admission base_config accepting_state_example "client" 100 [] "id").1.active_tests
      = accepting_state_example.active_tests :=
  ⟨(run_test_admission_checks base_config accepting_state_example "client" 100 [] "id").1,
   ((run_test_admission_checks base_config accepting_state_example "client" 100 [] "id").2.1
      (by simp [run_test_admission, accepting_state_example, base_config])).1,
   ((run_test_admission_checks base_config accepting_state_example "client" 100 [] "id").2.1
      (by simp [run_test_admission, accepting_state_example, base_config])).2⟩

/-! ## Claim C7 -/

/-- Shared fact: an admitted submission appends its job to the queue tail
and registers a pending entry in `active_tests`. -/
theorem run_test_admission_accepted (cfg : Config) (st : ServerState) (client_ip : String)
    (now : Int) (rbxm_data : List Nat) (test_id : String)
    (hadm : (run_test_admission cfg st client_ip now rbxm_data test_id).2 = none) :
    (run_test_admission cfg st client_ip now rbxm_data test_id).1.test_queue
      = st.test_queue ++ [{ test_id := test_id, data := rbxm_data }]
    ∧ (run_test_admission cfg st client_ip now rbxm_data test_id).1.active_tests test_id
      = some { data := rbxm_data, future := none } := by
  simp only [run_test_admission] at hadm ⊢
  split_ifs at hadm ⊢
  exact ⟨rfl, by simp [queue_put]⟩

/-- Claim C7: for an admitted job the result wait is bounded by
`queue depth at submission × test_timeout` — the depth sampled once, right
after the enqueue, so it equals the pre-submission depth plus one — and when
the future is not resolved within that bound (never, or only after the bound)
the submitter gets the `timeout` response while the pending entry is still
registered when the wait ends and is removed only by the handler's `finally`
cleanup. -/
theorem run_test_timeout_dynamic (cfg : Config) (st : ServerState) (client_ip : String)
    (now : Int) (rbxm_data : List Nat) (test_id : String)
    (arrival : Option (Nat × ResultData))
    (hadm : (run_test_admission cfg st client_ip now rbxm_data test_id).2 = none) :
    dynamic_timeout cfg
        (run_test_admission cfg st client_ip now rbxm_data test_id).1.test_queue.length
      = (st.test_queue.length + 1) * cfg.test_timeout
    ∧ (arrival = none →
        (run_test_await cfg (run_test_admission cfg st client_ip now rbxm_data test_id).1
            test_id arrival).1.status = "timeout"
        ∧ (run_test_await cfg (run_test_admission cfg st client_ip now rbxm_data test_id).1
            test_id arrival).2.1.active_tests test_id
          = some { data := rbxm_data, future := none }
        ∧ (run_test_await cfg (run_test_admission cfg st client_ip now rbxm_data test_id).1
            test_id arrival).2.2.active_tests test_id = none)
    ∧ (∀ t outcome, arrival = some (t, outcome) →
        dynamic_timeout cfg
            (run_test_admission cfg st client_ip now rbxm_data test_id).1.test_queue.length < t →
        (run_test_await cfg (run_test_admission cfg st client_ip now rbxm_data test_id).1
            test_id arrival).1.status = "timeout") := by
  obtain ⟨hq, ha⟩ := run_test_admission_accepted cfg st client_ip now rbxm_data test_id hadm
  refine ⟨?_, ?_, ?_⟩
  · rw [hq]
    simp [dynamic_timeout]
  · intro hnone
    subst hnone
    refine ⟨rfl, ha, ?_⟩
    simp [run_test_await]
  · intro t outcome harr hlate
    subst harr
    simp only [run_test_await, dynamic_timeout] at hlate ⊢
    rw [if_neg (by omega)]

/-- Witness for `run_test_timeout_dynamic` at a concrete admitted job whose
future never resolves. -/
theorem run_test_timeout_dynamic_witness :
    dynamic_timeout base_config
        (run_test_admission base_config accepting_state_example "client" 100
          RBXM_SIGNATURE "id").1.test_queue.length = 30
    ∧ (run_test_await base_config
        (run_test_admission base_config accepting_state_example "client" 100
          RBXM_SIGNATURE "id").1 "id" none).1.status = "timeout"
    ∧ (run_test_await base_config
        (run_test_admission base_config accepting_state_example "client" 100
          RBXM_SIGNATURE "id").1 "id" none).2.2.active_tests "id" = none :=
  ⟨(run_test_timeout_dynamic base_config accepting_state_example "client" 100
      RBXM_SIGNATURE "id" none
      (by simp [run_test_admission, accepting_state_example, base_config, RBXM_SIGNATURE])).1,
   ((run_test_timeout_dynamic base_config accepting_state_example "client" 100
      RBXM_SIGNATURE "id" none
      (by simp [run_test_admission, accepting_state_example, base_config, RBXM_SIGNATURE])).2.1
      rfl).1,
   ((run_test_timeout_dynamic base_config accepting_state_example "client" 100
      RBXM_SIGNATURE "id" none
      (by simp [run_test_admission, accepting_state_example, base_config, RBXM_SIGNATURE])).2.1
      rfl).2.2⟩

/-! ## Claim C8 -/

/-- Claim C8: for a registered pending test, the first result submission
writes the result into the slot exactly once and is answered `accepted`; a
second submission for the same id leaves the whole active-tests map — in
particular the already-written result — unchanged, yet is also answered
`accepted` rather than an error. -/
theorem submit_results_idempotent (active : String → Option ActiveEntry)
    (entry : ActiveEntry) (r1 r2 : TestResults)
    (h12 : r2.test_id = r1.test_id)
    (hreg : active r1.test_id = some entry) (hpending : entry.future = none) :
    (submit_results active r1).1 r1.test_id
      = some { entry with future := some (result_data_of r1) }
    ∧ (submit_results active r1).2 = .accepted r1.test_id
    ∧ (submit_results (submit_results active r1).1 r2).1 = (submit_results active r1).1
    ∧ (submit_results (submit_results active r1).1 r2).2 = .accepted r2.test_id := by
  have c1 : (submit_results active r1).1 r1.test_id
      = some { entry with future := some (result_data_of r1) } := by
    simp [submit_results, hreg, hpending]
  have c2 : (submit_results active r1).2 = .accepted r1.test_id := by
    simp [submit_results, hreg, hpending]
  have hl2 : (submit_results active r1).1 r2.test_id
      = some { entry with future := some (result_data_of r1) } := by
    rw [h12, c1]
  refine ⟨c1, c2, ?_, ?_⟩
  · generalize hA : (submit_results active r1).1 = A2 at hl2 ⊢
    simp [submit_results, hl2]
  · generalize hA : (submit_results active r1).1 = A2 at hl2 ⊢
    simp [submit_results, hl2]

/-- Witness for `submit_results_idempotent`: two submissions for `"t1"`,
both answered `accepted`. -/
theorem submit_results_idempotent_witness :
    (submit_results pending_active_example { test_id := "t1", success := true }).2
      = .accepted "t1"
    ∧ (submit_results
        (submit_results pending_active_example { test_id := "t1", success := true }).1
        { test_id := "t1", success := false }).2 = .accepted "t1" :=
  ⟨(submit_results_idempotent pending_active_example
      { data := RBXM_SIGNATURE, future := none }
      { test_id := "t1", success := true } { test_id := "t1", success := false }
      rfl (by simp [pending_active_example]) rfl).2.1,
   (submit_results_idempotent pending_active_example
      { data := RBXM_SIGNATURE, future := none }
      { test_id := "t1", success := true } { test_id := "t1", success := false }
      rfl (by simp [pending_active_example]) rfl).2.2.2⟩

/-! ## Claim C9 -/

/-- Claim C9: a submission that passes the draining and rate-limit checks
appends the current timestamp to the client's rate window before any payload
validation, so a submission then rejected as empty, oversized or
invalid-format still consumes one slot of that client's window, while the
other clients' windows, the queue, the active-tests map and the accepting
flag are unchanged. -/
theorem run_test_invalid_consumes_rate_slot (cfg : Config) (st : ServerState)
    (client_ip : String) (now : Int) (rbxm_data : List Nat) (test_id : String)
    (hacc : st.accepting_tests = true)
    (hrate : ((st.rate_limiter client_ip).filter (fun ts => now - 60 < ts)).length
      < cfg.max_requests_per_minute)
    (hbad : rbxm_data.length = 0 ∨ cfg.max_rbxm_size < rbxm_data.length
      ∨ RBXM_SIGNATURE.isPrefixOf rbxm_data = false) :
    (run_test_admission cfg st client_ip now rbxm_data test_id).1.rate_limiter client_ip
      = ((st.rate_limiter client_ip).filter (fun ts => now - 60 < ts)) ++ [now]
    ∧ (∀ ip, ip ≠ client_ip →
        (run_test_admission cfg st client_ip now rbxm_data test_id).1.rate_limiter ip
          = st.rate_limiter ip)
    ∧ (run_test_admission cfg st client_ip now rbxm_data test_id).1.test_queue
      = st.test_queue
    ∧ (run_test_admission cfg st client_ip now rbxm_data test_id).1.active_tests
      = st.active_tests
    ∧ (run_test_admission cfg st client_ip now rbxm_data test_id).1.accepting_tests
      = st.accepting_tests
    ∧ (run_test_admission cfg st client_ip now rbxm_data test_id).2 ≠ none := by
  simp only [run_test_admission]
  have hacc2 : ¬ (st.accepting_tests = false) := by simp [hacc]
  have hrate2 : ¬ (cfg.max_requests_per_minute
      ≤ ((st.rate_limiter client_ip).filter (fun ts => now - 60 < ts)).length) := by omega
  rw [if_neg hacc2, if_neg hrate2]
  split_ifs with h3 h4 h5
  · exact ⟨by simp, fun ip hip => by simp [hip], rfl, rfl, rfl, by simp⟩
  · exact ⟨by simp, fun ip hip => by simp [hip], rfl, rfl, rfl, by simp⟩
  · exact ⟨by simp, fun ip hip => by simp [hip], rfl, rfl, rfl, by simp⟩
  · exfalso
    rcases hbad with hb | hb | hb <;> simp_all

/-- Witness for `run_test_invalid_consumes_rate_slot` at a concrete empty
submission. -/
theorem run_test_invalid_consumes_rate_slot_witness :
    (run_test_admission base_config accepting_state_example "client" 100 [] "id").1.rate_limiter
        "client" = [100]
    ∧ (run_test_admission base_config accepting_state_example "client" 100 [] "id").1.test_queue
      = accepting_state_example.test_queue
    ∧ (run_test_admission base_config accepting_state_example "client" 100 [] "id").2 ≠ none := by
  have h := run_test_invalid_consumes_rate_slot base_config accepting_state_example
    "client" 100 [] "id" rfl (by simp [accepting_state_example, base_config])
    (Or.inl rfl)
  exact ⟨h.1, h.2.2.1, h.2.2.2.2.2⟩

/-! ## Claim C10 -/

/-- Claim C10: the post-enqueue wait loop of `run_test` exits only at a poll
where all four health flags (studio running, plugin installed, fflags
applied, placefile built) are simultaneously true, and on a trace where the
worker never becomes fully healthy the loop never exits for any amount of
fuel — no response, in particular no timeout response, is ever produced. -/
theorem run_test_health_wait (trace : Nat → HealthStatus) :
    (∀ fuel k n, wait_until_healthy trace fuel k = some n →
      (trace n).studio_running = true ∧ (trace n).plugin_installed = true
      ∧ (trace n).fflags_applied = true ∧ (trace n).placefile_built = true)
    ∧ ((∀ n, all_healthy (trace n) = false) →
        (∀ fuel k, wait_until_healthy trace fuel k = none)
        ∧ ∀ cfg st test_id arrival fuel,
            run_test_after_enqueue cfg st test_id trace fuel arrival = none) := by
  constructor
  · intro fuel
    induction fuel with
    | zero => intro k n h; exact Option.noConfusion h
    | succ f ih =>
      intro k n h
      rw [wait_until_healthy] at h
      by_cases hk : all_healthy (trace k)
      · rw [if_pos hk] at h
        obtain rfl : k = n := Option.some.injEq .. ▸ h
        unfold all_healthy at hk
        simp only [Bool.and_eq_true] at hk
        exact ⟨hk.1.1.1, hk.1.1.2, hk.1.2, hk.2⟩
      · rw [if_neg hk] at h
        exact ih (k + 1) n h
  · intro hnever
    have hwait : ∀ fuel k, wait_until_healthy trace fuel k = none := by
      intro fuel
      induction fuel with
      | zero => intro k; rfl
      | succ f ih =>
        intro k
        rw [wait_until_healthy, if_neg (by simp [hnever k])]
        exact ih (k + 1)
    refine ⟨hwait, ?_⟩
    intro cfg st test_id arrival fuel
    unfold run_test_after_enqueue
    rw [hwait fuel 0]

/-- Witness for `run_test_health_wait` on a trace where the studio is never
running. -/
theorem run_test_health_wait_witness :
    wait_until_healthy unhealthy_trace 50 0 = none
    ∧ run_test_after_enqueue base_config accepting_state_example "id" unhealthy_trace 50 none
      = none :=
  ⟨((run_test_health_wait unhealthy_trace).2 (fun _ => rfl)).1 50 0,
   ((run_test_health_wait unhealthy_trace).2 (fun _ => rfl)).2 base_config
     accepting_state_example "id" none 50⟩

end JestLua
